import Mathlib

/-!
# Verification of `multiproc.py`

A shallow embedding of the single-module process-pool executor
(`run`, `_runBuffered`, `_run` in `src/multiproc.py`) together with
theorems settling the specification claims.

Modelling conventions:
* Python values that the claims need are the inductive `Val`.  A Python
  object whose runtime type is exactly `tuple` is `Val.tuple true elems`;
  an instance of a proper subclass of `tuple` (e.g. a namedtuple) is
  `Val.tuple false elems`, so that the source's `type(args) is tuple`
  test becomes `isExactTuple`.
* A user function is modelled extensionally as `Func`: from the list of
  positional arguments it receives, it yields the text it prints to the
  current stdout and either a return value (`Except.ok`) or a raised
  exception (`Except.error`).
* Worker-process console state (`sys.stdout` / `sys.stderr` bindings,
  the contents of the real streams and of the temporary buffer file,
  and the trace of `time.sleep` calls) is threaded explicitly through
  `_runBuffered` as a `WorkerState`.
* The dispatcher `run` is driven by an `Env` describing the behaviour
  of the outside world: whether `multiprocessing.Pool(nproc)`
  construction succeeds, how many seconds the wait for all results
  takes, whether a `KeyboardInterrupt` arrives during the wait, and in
  which order the concurrently executing tasks complete.  It records
  the ordered trace of dispatcher events (`DEvent`).
-/

/-- Python exceptions distinguished by this development.  `nameError`
models Python's `NameError`/`UnboundLocalError` for referencing an
unassigned local variable. -/
inductive Err where
  | valueError (msg : String)
  | typeError (msg : String)
  | timeoutError
  | keyboardInterrupt
  | nameError (var : String)
  deriving Repr, DecidableEq

/-- Python values, as far as the claims need them.  `tuple exact elems`
carries whether the runtime type is exactly `tuple` (`exact = true`) or
a proper subclass such as a namedtuple (`exact = false`). -/
inductive Val where
  | int (n : Int)
  | str (s : String)
  | vnone
  | tuple (exact : Bool) (elems : List Val)

/-- The `type(args) is tuple` test from `_run` (src/multiproc.py line 85): true
exactly when the runtime type is `tuple` itself, not a subclass. -/
def isExactTuple : Val → Bool
  | .tuple true _ => true
  | _ => false

/-- One invocation of the user function: the console text it prints to
the current stdout while running, and its outcome (return value or
raised exception). -/
structure FuncCall where
  printed : String
  result : Except Err Val

/-- A user function, modelled extensionally on the list of positional
arguments it is called with. -/
def Func := List Val → FuncCall

/-- The `str(e)` rendering for the error values of this model, as used by `print(e)`
in `_runBuffered` (src/multiproc.py line 74). -/
def strOfErr : Err → String
  | .valueError msg => msg
  | .typeError msg => msg
  | .timeoutError => ""
  | .keyboardInterrupt => ""
  | .nameError var => "local variable referenced before assignment: " ++ var

/-- The stream objects a worker's `sys.stdout` / `sys.stderr` can be
bound to: the process's original streams or the temporary buffer file
opened by `_runBuffered`. -/
inductive OStream where
  | origStdout
  | origStderr
  | tmpfile
  deriving Repr, DecidableEq

/-- Observable worker-side events: `sleep ms` records a
`time.sleep` call of `ms` milliseconds. -/
inductive WEvent where
  | sleep (ms : Nat)
  deriving Repr, DecidableEq

/-- The console state of one worker process: current `sys.stdout` and
`sys.stderr` bindings, the accumulated contents of the real stdout and
stderr streams and of the temporary buffer file, and the trace of
sleeps performed. -/
structure WorkerState where
  sysStdout : OStream
  sysStderr : OStream
  realOut : String
  realErr : String
  tmp : String
  events : List WEvent

/-- Writing a string to a stream object appends to that stream's
contents. -/
def writeStream (st : WorkerState) (strm : OStream) (s : String) : WorkerState :=
  match strm with
  | .origStdout => { st with realOut := st.realOut ++ s }
  | .origStderr => { st with realErr := st.realErr ++ s }
  | .tmpfile => { st with tmp := st.tmp ++ s }

/-- The console state of a worker process when a task starts: streams
bound to the process's real stdout/stderr, nothing written yet. -/
def initWorker : WorkerState :=
  { sysStdout := .origStdout, sysStderr := .origStderr,
    realOut := "", realErr := "", tmp := "", events := [] }

/-- The value `_runBuffered` hands back across the process boundary:
`.ok (some v)` for a normal return of `v`, `.ok none` for the implicit
`return None` after a suppressed exception, `.error e` for an exception
propagating out of the call. -/
structure BufferedResult where
  result : Except Err (Option Val)
  state : WorkerState

/-- Embedding of `_runBuffered(func, raiseEnabled)` (src/multiproc.py lines 47-82).
The zero-argument closure `func` is modelled by its one invocation
`body : FuncCall`.  Step by step, following the source:
open a fresh empty temporary file; save `sys.stdout` / `sys.stderr`;
rebind both to the temporary file; run the body (its printed text goes
to the current `sys.stdout`, i.e. the buffer); on a raised exception,
either sleep 200 ms and re-raise (`raiseEnabled`) or `print(e)` to the
still-redirected stdout and fall through to an implicit `return None`;
in the `finally` block restore both stream bindings, read the whole
buffer back and `print` it (now to the restored stdout); the `with`
block then deletes the temporary file. -/
def _runBuffered (body : FuncCall) (raiseEnabled : Bool) (st0 : WorkerState) :
    BufferedResult :=
  let st1 := { st0 with tmp := "" }
  let stdout := st1.sysStdout
  let stderr := st1.sysStderr
  let st2 := { st1 with sysStdout := OStream.tmpfile, sysStderr := OStream.tmpfile }
  let st3 := writeStream st2 st2.sysStdout body.printed
  let pend : Except Err (Option Val) × WorkerState :=
    match body.result with
    | .ok v => (.ok (some v), st3)
    | .error e =>
      if raiseEnabled then
        (.error e, { st3 with events := st3.events ++ [WEvent.sleep 200] })
      else
        (.ok none, writeStream st3 st3.sysStdout (strOfErr e ++ "\n"))
  let st4 := { pend.2 with sysStdout := stdout, sysStderr := stderr }
  let log := st4.tmp
  let st5 := writeStream st4 st4.sysStdout log
  let st6 := { st5 with tmp := "" }
  ⟨pend.1, st6⟩

/-- Embedding of `_run(func, args, raiseEnabled)` (src/multiproc.py lines 84-88):
spread the argument unit into positional arguments when its runtime
type is exactly `tuple`, otherwise pass it whole as one argument. -/
def _run (func : Func) (args : Val) (raiseEnabled : Bool) (st : WorkerState) :
    BufferedResult :=
  match args with
  | .tuple true elems => _runBuffered (func elems) raiseEnabled st
  | _ => _runBuffered (func [args]) raiseEnabled st

/-- The `FuncCall` a task performs: the user function applied to the
spread tuple elements or to the single argument unit. -/
def applyUnit (func : Func) (args : Val) : FuncCall :=
  match args with
  | .tuple true elems => func elems
  | _ => func [args]

/-! ## The dispatcher `run` -/

/-- SIGINT handler values the dispatcher installs: `signal.SIG_IGN`
(`ignore`) or the caller's original handler saved in `origHandler`. -/
inductive SigHandler where
  | ignore
  | original
  deriving Repr, DecidableEq

/-- Dispatcher-level events, in the order `run` performs them. -/
inductive DEvent where
  | setSignal (h : SigHandler)
  | createPool
  | submitTasks
  | waitResults
  | poolClose
  | poolTerminate
  | poolJoin
  deriving Repr, DecidableEq

/-- The behaviour of the outside world during one call to `run`:
whether `multiprocessing.Pool(nproc)` construction succeeds (and with
which exception it fails otherwise), how many seconds elapse before
all tasks have completed, whether a `KeyboardInterrupt` is delivered
while waiting on the results, and the order in which the concurrently
executing tasks complete (a sequence of indices into `argList`). -/
structure Env where
  createOk : Bool
  createErr : Err
  elapsed : Nat
  interrupted : Bool
  order : List Nat
  deriving Repr, DecidableEq

/-- One completion event: the outcome of the task at index `i` is
stored in result slot `i`. -/
def gatherStep (outcomes : List α) (acc : List (Option α)) (i : Nat) :
    List (Option α) :=
  match outcomes[i]? with
  | some r => acc.set i (some r)
  | none => acc

/-- The pool stores each completing task's outcome in the result slot
of that task's original index, in completion order; slots of tasks
that never complete stay empty. -/
def gatherInOrder (outcomes : List α) (order : List Nat) : List (Option α) :=
  order.foldl (gatherStep outcomes) (List.replicate outcomes.length none)

/-- The exception, if any, that the task at index `i` raised across
the process boundary. -/
def slotError (outcomes : List (Except Err (Option Val))) (i : Nat) :
    Option Err :=
  match outcomes[i]? with
  | some (.error e) => some e
  | _ => none

/-- The first exception the pool sees, in task completion order: this
is the exception `MapResult.get` re-raises when some task failed. -/
def firstErrorInOrder (outcomes : List (Except Err (Option Val)))
    (order : List Nat) : Option Err :=
  (order.filterMap (slotError outcomes)).head?

/-- Reading a filled result slot back as the task's Python return
value; an empty or failed slot contributes no value. -/
def extractValue : Option (Except Err (Option Val)) → Option Val
  | some (.ok v) => v
  | _ => none

/-- Embedding of `mapResult.get(timeout)` (src/multiproc.py line 38).  A pending
`KeyboardInterrupt` is raised out of the wait; if the tasks have not
all completed within the timeout the wait raises
`multiprocessing.TimeoutError`; otherwise, if some task raised, the
first such exception (in completion order) is re-raised; otherwise the
list of return values is handed back in slot (submission) order. -/
def mapGet (outcomes : List (Except Err (Option Val))) (order : List Nat)
    (interrupted : Bool) (timedOut : Bool) : Except Err (List (Option Val)) :=
  if interrupted then .error .keyboardInterrupt
  else if timedOut || !((gatherInOrder outcomes order).all Option.isSome) then
    .error .timeoutError
  else
    match firstErrorInOrder outcomes order with
    | some e => .error e
    | none => .ok ((gatherInOrder outcomes order).map extractValue)

/-- The outcome each task's `runner = functools.partial(_run, func,
raiseEnabled=raiseExceptions)` invocation produces in its worker
process, starting from a fresh per-task console state. -/
def taskResults (func : Func) (argList : List Val) (raiseExceptions : Bool) :
    List (Except Err (Option Val)) :=
  argList.map (fun args => (_run func args raiseExceptions initWorker).result)

/-- What one call to `run` did: the returned value or raised exception,
and the ordered trace of dispatcher events. -/
structure RunOutput where
  result : Except Err (List (Option Val))
  events : List DEvent

/-- Default of the `timeout` parameter of `run` (src/multiproc.py
line 10: `timeout=3600`). -/
def runDefaultTimeout : Nat := 3600

/-- Default of the `raiseExceptions` parameter of `run`
(src/multiproc.py line 10: `raiseExceptions=True`). -/
def runDefaultRaiseExceptions : Bool := true

/-- Embedding of `run(func, argList, nproc, timeout, raiseExceptions)`
(src/multiproc.py lines 10-45).  Inside the `try` block: install
`SIG_IGN` as the SIGINT handler (saving the caller's original one),
construct the pool, restore the original handler, submit all tasks
with `map_async`, wait on the results with the timeout, close the pool
and return the results; the `finally` block joins the pool.  Any
exception out of the `try` block reaches `except BaseException`, which
terminates the pool and re-raises.

When pool construction itself raises, the local variable `pool` was
never assigned, so `pool.terminate()` in the `except` block and
`pool.join()` in the `finally` block both raise `UnboundLocalError`
(a `NameError`): no pool method runs, and the exception the caller
sees is the `UnboundLocalError` from the `finally` block instead of
the construction error. -/
def run (func : Func) (argList : List Val) (raiseExceptions : Bool)
    (env : Env) (timeout : Nat) : RunOutput :=
  if env.createOk then
    match mapGet (taskResults func argList raiseExceptions) env.order
        env.interrupted (decide (timeout < env.elapsed)) with
    | .ok results =>
      { result := .ok results,
        events := [.setSignal .ignore, .createPool, .setSignal .original,
                   .submitTasks, .waitResults, .poolClose, .poolJoin] }
    | .error e =>
      { result := .error e,
        events := [.setSignal .ignore, .createPool, .setSignal .original,
                   .submitTasks, .waitResults, .poolTerminate, .poolJoin] }
  else
    { result := .error (.nameError "pool"),
      events := [.setSignal .ignore] }

/-! ## Concrete user functions for witnesses, mirroring the module's
unit tests -/

/-- The test function `_testfunc(v) = v * 2` from the module's unit tests; any other
argument shape is a Python `TypeError`. -/
def _testfunc : Func := fun args =>
  match args with
  | [.int v] => { printed := "", result := .ok (.int (v * 2)) }
  | _ => { printed := "", result := .error (.typeError "arity") }

/-- The test function `_testmultiarg(v1, v2) = v1 * v1 + v2 * v2` from the module's unit
tests. -/
def _testmultiarg : Func := fun args =>
  match args with
  | [.int v1, .int v2] => { printed := "", result := .ok (.int (v1 * v1 + v2 * v2)) }
  | _ => { printed := "", result := .error (.typeError "arity") }

/-- The test function `_testexc(idx)` from the module's unit tests: prints a line and
raises a `ValueError`. -/
def _testexc : Func := fun args =>
  match args with
  | [.int _] => { printed := "child raising\n",
                  result := .error (.valueError "intentional failure") }
  | _ => { printed := "", result := .error (.typeError "arity") }

/-- A probe reporting how many positional arguments it was called
with: distinguishes a spread tuple from a tuple passed whole. -/
def argCountProbe : Func := fun args =>
  { printed := "", result := .ok (.int (args.length : Int)) }

/-! ## Characterizations of the worker-side functions -/

/-- The full text captured in the temporary buffer during one
`_runBuffered` invocation: everything the body printed, followed by
`print(e)`'s output when a raised exception was suppressed. -/
def capturedText (body : FuncCall) (raiseEnabled : Bool) : String :=
  match body.result with
  | .ok _ => body.printed
  | .error e =>
    if raiseEnabled then body.printed
    else body.printed ++ (strOfErr e ++ "\n")

/-- The Python value one task's `_run` invocation hands back when
exceptions are suppressed: the function's return value, or the
implicit `None` when the function raised. -/
def sentinelValue (func : Func) (args : Val) : Option Val :=
  match (applyUnit func args).result with
  | .ok v => some v
  | .error _ => none

theorem _run_eq_runBuffered (func : Func) (args : Val) (b : Bool)
    (st : WorkerState) :
    _run func args b st = _runBuffered (applyUnit func args) b st := by
  cases args with
  | int n => rfl
  | str s => rfl
  | vnone => rfl
  | tuple exact elems => cases exact <;> rfl

theorem runBuffered_result_eq (body : FuncCall) (b : Bool) (st : WorkerState) :
    (_runBuffered body b st).result =
      match body.result with
      | .ok v => .ok (some v)
      | .error e => if b then .error e else .ok none := by
  rcases body with ⟨printed, result⟩
  cases result with
  | ok v => rfl
  | error e => cases b <;> rfl

/-- The `time.sleep` calls one `_runBuffered` invocation performs:
exactly one 200 ms sleep when an exception is being re-raised, none
otherwise. -/
def sleepTrace (body : FuncCall) (b : Bool) : List WEvent :=
  match body.result with
  | .error _ => if b then [WEvent.sleep 200] else []
  | .ok _ => []

theorem runBuffered_state_eq (body : FuncCall) (b : Bool) (st0 : WorkerState)
    (hout : st0.sysStdout = .origStdout) :
    (_runBuffered body b st0).state =
      { st0 with realOut := st0.realOut ++ capturedText body b,
                 tmp := "",
                 events := st0.events ++ sleepTrace body b } := by
  rcases st0 with ⟨so, se, ro, re, tm, ev⟩
  rcases body with ⟨printed, result⟩
  simp only [WorkerState.sysStdout] at hout
  subst hout
  cases result with
  | ok v => simp [_runBuffered, writeStream, capturedText, sleepTrace]
  | error e =>
    cases b <;> simp [_runBuffered, writeStream, capturedText, sleepTrace]

/-! ## Properties of the result-slot assembly -/

theorem gatherStep_length (outcomes : List α) (acc : List (Option α)) (i : Nat) :
    (gatherStep outcomes acc i).length = acc.length := by
  unfold gatherStep
  cases outcomes[i]? <;> simp

theorem gatherFold_length (outcomes : List α) (order : List Nat)
    (init : List (Option α)) :
    (order.foldl (gatherStep outcomes) init).length = init.length := by
  induction order generalizing init with
  | nil => rfl
  | cons i rest ih => rw [List.foldl_cons, ih, gatherStep_length]

theorem gatherFold_getElem?_not_mem (outcomes : List α) (order : List Nat)
    (init : List (Option α)) (j : Nat) (hj : j ∉ order) :
    (order.foldl (gatherStep outcomes) init)[j]? = init[j]? := by
  induction order generalizing init with
  | nil => rfl
  | cons i rest ih =>
    rw [List.foldl_cons, ih _ (fun h => hj (List.mem_cons_of_mem _ h))]
    unfold gatherStep
    cases outcomes[i]? with
    | none => rfl
    | some r =>
      refine List.getElem?_set_ne (fun he => hj ?_)
      rw [← he]
      exact List.mem_cons_self i rest

theorem gatherFold_getElem?_mem (outcomes : List α) (order : List Nat)
    (init : List (Option α)) (j : Nat) (hmem : j ∈ order)
    (hj : j < outcomes.length) (hlen : init.length = outcomes.length) :
    (order.foldl (gatherStep outcomes) init)[j]? = some (some (outcomes.get ⟨j, hj⟩)) := by
  induction order generalizing init with
  | nil => cases hmem
  | cons i rest ih =>
    rw [List.foldl_cons]
    by_cases hr : j ∈ rest
    · exact ih (gatherStep outcomes init i) hr (by rw [gatherStep_length]; exact hlen)
    · have hij : i = j := by
        rcases List.mem_cons.mp hmem with h | h
        · exact h.symm
        · exact absurd h hr
      subst hij
      rw [gatherFold_getElem?_not_mem _ _ _ _ hr]
      unfold gatherStep
      rw [List.getElem?_eq_getElem hj]
      exact List.getElem?_set_self (by rw [hlen]; exact hj)

theorem gather_covered (outcomes : List α) (order : List Nat)
    (hcov : ∀ j, j < outcomes.length → j ∈ order) :
    gatherInOrder outcomes order = outcomes.map some := by
  apply List.ext_getElem?
  intro n
  by_cases hn : n < outcomes.length
  · rw [gatherInOrder,
      gatherFold_getElem?_mem outcomes order _ n (hcov n hn) hn
        (List.length_replicate _ _),
      List.getElem?_map, List.getElem?_eq_getElem hn]
    rfl
  · rw [List.getElem?_eq_none, List.getElem?_eq_none]
    · rw [List.length_map]; omega
    · rw [gatherInOrder, gatherFold_length, List.length_replicate]; omega

/-! ## Properties of error selection and of `mapGet` -/

theorem firstError_eq_none (outcomes : List (Except Err (Option Val)))
    (order : List Nat)
    (hok : ∀ i, slotError outcomes i = none) :
    firstErrorInOrder outcomes order = none := by
  unfold firstErrorInOrder
  rw [List.head?_eq_none_iff, List.filterMap_eq_nil_iff]
  intro i _
  exact hok i

theorem firstError_isSome (outcomes : List (Except Err (Option Val)))
    (order : List Nat) (i : Nat) (e : Err) (hmem : i ∈ order)
    (hi : slotError outcomes i = some e) :
    firstErrorInOrder outcomes order ≠ none := by
  unfold firstErrorInOrder
  rw [Ne, List.head?_eq_none_iff, List.filterMap_eq_nil_iff]
  intro h
  exact Option.noConfusion (hi ▸ h i hmem)

theorem firstError_mem (outcomes : List (Except Err (Option Val)))
    (order : List Nat) (e : Err)
    (h : firstErrorInOrder outcomes order = some e) :
    ∃ i, i ∈ order ∧ slotError outcomes i = some e := by
  unfold firstErrorInOrder at h
  have hmem : e ∈ order.filterMap (slotError outcomes) :=
    List.mem_of_mem_head? (Option.mem_def.mpr h)
  rcases List.mem_filterMap.mp hmem with ⟨i, hio, hie⟩
  exact ⟨i, hio, hie⟩

theorem mapGet_ok_inv (outcomes : List (Except Err (Option Val)))
    (order : List Nat) (interrupted timedOut : Bool)
    (results : List (Option Val))
    (h : mapGet outcomes order interrupted timedOut = .ok results) :
    results = (gatherInOrder outcomes order).map extractValue := by
  unfold mapGet at h
  split at h
  · exact Except.noConfusion h
  · split at h
    · exact Except.noConfusion h
    · split at h
      · exact Except.noConfusion h
      · injection h with h
        exact h.symm

theorem mapGet_complete (outcomes : List (Except Err (Option Val)))
    (order : List Nat)
    (hcov : ∀ j, j < outcomes.length → j ∈ order) :
    mapGet outcomes order false false =
      match firstErrorInOrder outcomes order with
      | some e => .error e
      | none => .ok (outcomes.map (fun r => extractValue (some r))) := by
  cases hfe : firstErrorInOrder outcomes order with
  | some e => simp [mapGet, hfe, gather_covered outcomes order hcov]
  | none =>
    simp [mapGet, hfe, gather_covered outcomes order hcov, List.map_map,
      Function.comp]

theorem taskResult_eq (func : Func) (args : Val) (b : Bool) :
    (_run func args b initWorker).result =
      match (applyUnit func args).result with
      | .ok v => .ok (some v)
      | .error e => if b then .error e else .ok none := by
  rw [_run_eq_runBuffered, runBuffered_result_eq]

theorem taskResults_getElem? (func : Func) (argList : List Val) (b : Bool)
    (i : Nat) (hi : i < argList.length) :
    (taskResults func argList b)[i]? =
      some (_run func (argList.get ⟨i, hi⟩) b initWorker).result := by
  unfold taskResults
  rw [List.getElem?_map, List.getElem?_eq_getElem hi]
  rfl

theorem taskResults_length (func : Func) (argList : List Val) (b : Bool) :
    (taskResults func argList b).length = argList.length := by
  unfold taskResults
  exact List.length_map _ _

theorem run_ok_inv (func : Func) (argList : List Val) (b : Bool) (env : Env)
    (timeout : Nat) (results : List (Option Val))
    (h : (run func argList b env timeout).result = .ok results) :
    env.createOk = true ∧
      mapGet (taskResults func argList b) env.order env.interrupted
        (decide (timeout < env.elapsed)) = .ok results := by
  unfold run at h
  split at h
  case isTrue hc =>
    refine ⟨hc, ?_⟩
    split at h
    case h_1 l heq =>
      have h2 : Except.ok (ε := Err) l = Except.ok results := h
      injection h2 with h2
      exact h2 ▸ heq
    case h_2 e heq => exact Except.noConfusion h
  case isFalse hc => exact Except.noConfusion h

theorem run_createOk_eq (func : Func) (argList : List Val) (b : Bool)
    (env : Env) (timeout : Nat) (hc : env.createOk = true) :
    run func argList b env timeout =
      match mapGet (taskResults func argList b) env.order env.interrupted
          (decide (timeout < env.elapsed)) with
      | .ok results =>
        { result := .ok results,
          events := [.setSignal .ignore, .createPool, .setSignal .original,
                     .submitTasks, .waitResults, .poolClose, .poolJoin] }
      | .error e =>
        { result := .error e,
          events := [.setSignal .ignore, .createPool, .setSignal .original,
                     .submitTasks, .waitResults, .poolTerminate, .poolJoin] } := by
  unfold run
  rw [hc, if_pos rfl]

theorem run_eq_of_complete (func : Func) (argList : List Val) (b : Bool)
    (env : Env) (timeout : Nat)
    (hc : env.createOk = true) (hni : env.interrupted = false)
    (ht : env.elapsed ≤ timeout)
    (hcov : ∀ j, j < argList.length → j ∈ env.order) :
    run func argList b env timeout =
      match firstErrorInOrder (taskResults func argList b) env.order with
      | some e =>
        { result := .error e,
          events := [.setSignal .ignore, .createPool, .setSignal .original,
                     .submitTasks, .waitResults, .poolTerminate, .poolJoin] }
      | none =>
        { result := .ok ((taskResults func argList b).map
            (fun r => extractValue (some r))),
          events := [.setSignal .ignore, .createPool, .setSignal .original,
                     .submitTasks, .waitResults, .poolClose, .poolJoin] } := by
  have hcov2 : ∀ j, j < (taskResults func argList b).length → j ∈ env.order := by
    intro j hj
    rw [taskResults_length] at hj
    exact hcov j hj
  have htd : decide (timeout < env.elapsed) = false :=
    decide_eq_false (Nat.not_lt.mpr ht)
  rw [run_createOk_eq func argList b env timeout hc, hni, htd,
    mapGet_complete (taskResults func argList b) env.order hcov2]
  cases firstErrorInOrder (taskResults func argList b) env.order <;> rfl

theorem extract_task_suppressed (func : Func) (a : Val) :
    extractValue (some ((_run func a false initWorker).result))
      = sentinelValue func a := by
  rw [taskResult_eq]
  unfold sentinelValue
  cases (applyUnit func a).result <;> rfl

theorem results_eq_sentinels (func : Func) (argList : List Val) :
    (taskResults func argList false).map (fun r => extractValue (some r))
      = argList.map (sentinelValue func) := by
  unfold taskResults
  rw [List.map_map]
  exact congrArg (fun f => List.map f argList)
    (funext fun a => extract_task_suppressed func a)

theorem slotError_suppressed (func : Func) (argList : List Val) (k : Nat) :
    slotError (taskResults func argList false) k = none := by
  unfold slotError
  cases hk : (taskResults func argList false)[k]? with
  | none => rfl
  | some r =>
    have hklen : k < (taskResults func argList false).length :=
      (List.getElem?_eq_some.mp hk).1
    have hklen2 : k < argList.length := by
      rw [taskResults_length] at hklen
      exact hklen
    rw [taskResults_getElem? func argList false k hklen2] at hk
    injection hk with hk
    rw [← hk, taskResult_eq]
    cases (applyUnit func (argList.get ⟨k, hklen2⟩)).result <;> rfl

/-! ## Claim theorems -/

/-- An environment in which pool construction succeeds, nothing is
interrupted, the wait completes at once, and the two tasks finish in
reverse submission order. -/
def envTwoRev : Env :=
  { createOk := true, createErr := .valueError "", elapsed := 0,
    interrupted := false, order := [1, 0] }

/-- An environment with five tasks finishing in a shuffled order. -/
def envFiveShuffled : Env :=
  { createOk := true, createErr := .valueError "", elapsed := 0,
    interrupted := false, order := [4, 2, 0, 3, 1] }

/-- Claim C2: a tuple-typed argument unit is spread into separate
positional arguments and any other unit is passed whole as one single
argument; concretely, `run(f, [(1,2),(3,4)])` with `f(a,b)=a*a+b*b`
returns `[5, 25]`, and `run(g, [9,3,8,1,33])` with `g(v)=v*2` returns
`[18,6,16,2,66]`. -/
theorem run_spreads_tuples :
    (∀ (func : Func) (elems : List Val) (b : Bool) (st : WorkerState),
      _run func (.tuple true elems) b st = _runBuffered (func elems) b st) ∧
    (∀ (func : Func) (v : Val) (b : Bool) (st : WorkerState),
      isExactTuple v = false → _run func v b st = _runBuffered (func [v]) b st) ∧
    (run _testmultiarg
        [.tuple true [.int 1, .int 2], .tuple true [.int 3, .int 4]]
        true envTwoRev 3600).result
      = .ok [some (.int 5), some (.int 25)] ∧
    (run _testfunc [.int 9, .int 3, .int 8, .int 1, .int 33]
        true envFiveShuffled 3600).result
      = .ok [some (.int 18), some (.int 6), some (.int 16), some (.int 2),
             some (.int 66)] := by
  refine ⟨fun func elems b st => rfl, fun func v b st hv => ?_, rfl, rfl⟩
  cases v with
  | int n => rfl
  | str s => rfl
  | vnone => rfl
  | tuple exact elems =>
    cases exact with
    | false => rfl
    | true => exact absurd hv (by simp [isExactTuple])

/-- Claim C2 witness: instantiates the non-tuple clause at a concrete
non-tuple argument unit. -/
theorem run_spreads_tuples_witness :
    _run _testfunc (.int 9) true initWorker
      = _runBuffered (_testfunc [.int 9]) true initWorker :=
  run_spreads_tuples.2.1 _testfunc (.int 9) true initWorker rfl

/-- Claim C10: an argument unit whose runtime type is a proper subclass
of `tuple` (e.g. a namedtuple, `Val.tuple false elems`) is NOT spread:
the user function receives the unit whole as one single positional
argument.  The probe receives 1 argument for the subclass instance and
2 arguments for the exact tuple of the same two elements. -/
theorem subclass_tuple_not_spread :
    (∀ (func : Func) (elems : List Val) (b : Bool) (st : WorkerState),
      _run func (.tuple false elems) b st
        = _runBuffered (func [.tuple false elems]) b st) ∧
    extractValue (some (_run argCountProbe (.tuple false [.int 1, .int 2])
      true initWorker).result) = some (.int 1) ∧
    extractValue (some (_run argCountProbe (.tuple true [.int 1, .int 2])
      true initWorker).result) = some (.int 2) :=
  ⟨fun _ _ _ _ => rfl, rfl, rfl⟩

/-- Claim C5: on every exit path of `_runBuffered` — normal return,
re-raised exception, suppressed exception, cancellation — the original
`sys.stdout` / `sys.stderr` bindings are restored, and the whole
captured buffer (exactly `capturedText body raiseEnabled`) is written
exactly once to the real standard output. -/
theorem runBuffered_restores_and_flushes (body : FuncCall)
    (raiseEnabled : Bool) (st0 : WorkerState)
    (hout : st0.sysStdout = .origStdout) :
    (_runBuffered body raiseEnabled st0).state.sysStdout = st0.sysStdout ∧
    (_runBuffered body raiseEnabled st0).state.sysStderr = st0.sysStderr ∧
    (_runBuffered body raiseEnabled st0).state.realOut
      = st0.realOut ++ capturedText body raiseEnabled := by
  rw [runBuffered_state_eq body raiseEnabled st0 hout]
  exact ⟨rfl, rfl, rfl⟩

/-- Claim C5 witness: a body that prints and raises, run with suppression
from the standard worker entry state. -/
theorem runBuffered_restores_and_flushes_witness :
    (_runBuffered { printed := "hello\n", result := .error (.valueError "boom") }
      false initWorker).state.realOut
      = initWorker.realOut ++
        capturedText { printed := "hello\n", result := .error (.valueError "boom") }
          false :=
  (runBuffered_restores_and_flushes
    { printed := "hello\n", result := .error (.valueError "boom") }
    false initWorker rfl).2.2

/-- Claim C9: under the propagate policy, a task body that raises makes
`_runBuffered` record exactly one 200 ms sleep (the grace delay) before
the exception is re-raised across the process boundary. -/
theorem runBuffered_grace_delay (body : FuncCall) (st0 : WorkerState) (e : Err)
    (he : body.result = .error e) :
    (_runBuffered body true st0).result = .error e ∧
    (_runBuffered body true st0).state.events
      = st0.events ++ [WEvent.sleep 200] := by
  rcases st0 with ⟨so, se, ro, re, tm, ev⟩
  rcases body with ⟨printed, result⟩
  have he2 : result = Except.error e := he
  subst he2
  refine ⟨rfl, ?_⟩
  cases so <;> rfl

/-- Claim C9 witness: the grace delay observed on a concrete failing
body. -/
theorem runBuffered_grace_delay_witness :
    (_runBuffered { printed := "", result := .error (.valueError "boom") }
      true initWorker).state.events
      = initWorker.events ++ [WEvent.sleep 200] :=
  (runBuffered_grace_delay { printed := "", result := .error (.valueError "boom") }
    initWorker (.valueError "boom") rfl).2

/-- Claim C1: whenever a call to `run` succeeds — for any completion
order of the concurrently executing tasks that covers all task indices
— the returned list has the same length as `argList`, its `i`-th
element is exactly the value the task for `argList[i]` produced, and in
particular it is `v` whenever applying `func` to `argList[i]` returned
`v`. -/
theorem run_result_ordered (func : Func) (argList : List Val)
    (raiseExceptions : Bool) (env : Env) (timeout : Nat)
    (results : List (Option Val))
    (hcov : ∀ i, i < argList.length → i ∈ env.order)
    (hok : (run func argList raiseExceptions env timeout).result = .ok results) :
    results.length = argList.length ∧
    (∀ i (hi : i < argList.length),
      results[i]? =
        some (extractValue (some (_run func (argList.get ⟨i, hi⟩)
          raiseExceptions initWorker).result))) ∧
    (∀ i (hi : i < argList.length) (v : Val),
      (applyUnit func (argList.get ⟨i, hi⟩)).result = .ok v →
      results[i]? = some (some v)) := by
  obtain ⟨hc, hm⟩ := run_ok_inv func argList raiseExceptions env timeout results hok
  have hres := mapGet_ok_inv _ _ _ _ _ hm
  have hcov2 : ∀ j, j < (taskResults func argList raiseExceptions).length →
      j ∈ env.order := by
    intro j hj
    rw [taskResults_length] at hj
    exact hcov j hj
  rw [gather_covered _ _ hcov2, List.map_map] at hres
  subst hres
  refine ⟨?_, ?_, ?_⟩
  · rw [List.length_map, taskResults_length]
  · intro i hi
    rw [List.getElem?_map, taskResults_getElem? func argList raiseExceptions i hi]
    rfl
  · intro i hi v hv
    rw [List.getElem?_map, taskResults_getElem? func argList raiseExceptions i hi,
      taskResult_eq, hv]
    rfl

/-- Claim C1 witness: two tasks completing in reverse order still produce
a result list of the input's length (and, by the theorem's other
conjuncts, in input order). -/
theorem run_result_ordered_witness :
    ([some (Val.int 18), some (Val.int 6)] : List (Option Val)).length
      = ([Val.int 9, Val.int 3] : List Val).length :=
  (run_result_ordered _testfunc [Val.int 9, Val.int 3] true envTwoRev 3600
    [some (Val.int 18), some (Val.int 6)] (by decide) rfl).1

/-- Claim C3: under the propagate policy, if some task's function raises,
the whole call fails: `run` raises an exception that is itself the
error raised by one of the tasks, the pool is terminated (and only
then joined), and no result list — partial or otherwise — is
returned. -/
theorem run_propagate_aborts (func : Func) (argList : List Val) (env : Env)
    (timeout : Nat)
    (hc : env.createOk = true) (hni : env.interrupted = false)
    (ht : env.elapsed ≤ timeout)
    (hcov : ∀ j, j < argList.length → j ∈ env.order)
    (i : Nat) (hi : i < argList.length) (e : Err)
    (he : (applyUnit func (argList.get ⟨i, hi⟩)).result = .error e) :
    (∃ e' j, ∃ hj : j < argList.length,
      (applyUnit func (argList.get ⟨j, hj⟩)).result = .error e' ∧
      (run func argList true env timeout).result = .error e') ∧
    (run func argList true env timeout).events =
      [.setSignal .ignore, .createPool, .setSignal .original, .submitTasks,
       .waitResults, .poolTerminate, .poolJoin] ∧
    (∀ rs : List (Option Val),
      (run func argList true env timeout).result ≠ .ok rs) := by
  have hrun := run_eq_of_complete func argList true env timeout hc hni ht hcov
  have hslot : slotError (taskResults func argList true) i = some e := by
    unfold slotError
    rw [taskResults_getElem? func argList true i hi, taskResult_eq, he]
    rfl
  cases hfe : firstErrorInOrder (taskResults func argList true) env.order with
  | none => exact absurd hfe (firstError_isSome _ _ i e (hcov i hi) hslot)
  | some e' =>
    rw [hfe] at hrun
    obtain ⟨j, hjo, hje⟩ := firstError_mem _ _ e' hfe
    have hjlen : j < argList.length := by
      by_contra hlen
      have hnone : (taskResults func argList true)[j]? = none :=
        List.getElem?_eq_none (by rw [taskResults_length]; omega)
      unfold slotError at hje
      rw [hnone] at hje
      exact Option.noConfusion hje
    have hj2 : (applyUnit func (argList.get ⟨j, hjlen⟩)).result = .error e' := by
      unfold slotError at hje
      rw [taskResults_getElem? func argList true j hjlen, taskResult_eq] at hje
      cases hav : (applyUnit func (argList.get ⟨j, hjlen⟩)).result with
      | ok v =>
        rw [hav] at hje
        exact Option.noConfusion hje
      | error e2 =>
        rw [hav] at hje
        have hje2 : some e2 = some e' := hje
        injection hje2 with hje2
        rw [hje2]
    refine ⟨⟨e', j, hjlen, hj2, by rw [hrun]⟩, by rw [hrun], ?_⟩
    intro rs hcontra
    rw [hrun] at hcontra
    exact Except.noConfusion hcontra

/-- Claim C3 witness: a two-task batch whose first task raises (the
module's `_testexc`); the full dispatcher trace ends in terminate,
join. -/
theorem run_propagate_aborts_witness :
    (run _testexc [Val.int 1, Val.int 2] true envTwoRev 3600).events =
      [.setSignal .ignore, .createPool, .setSignal .original, .submitTasks,
       .waitResults, .poolTerminate, .poolJoin] :=
  (run_propagate_aborts _testexc [Val.int 1, Val.int 2] envTwoRev 3600
    rfl rfl (by decide) (by decide) 0 (by decide)
    (.valueError "intentional failure") rfl).2.1

/-- Claim C4: under the log-and-continue policy, a task whose function
raises does not abort the batch: `run` still returns a full list in
input order, the failing task's slot holds the `None` sentinel, every
other succeeding task's slot holds its return value, and the error's
text appears in the failing task's buffered output, which is flushed
to that worker's real standard output. -/
theorem run_log_and_continue (func : Func) (argList : List Val) (env : Env)
    (timeout : Nat)
    (hc : env.createOk = true) (hni : env.interrupted = false)
    (ht : env.elapsed ≤ timeout)
    (hcov : ∀ j, j < argList.length → j ∈ env.order)
    (i : Nat) (hi : i < argList.length) (e : Err)
    (he : (applyUnit func (argList.get ⟨i, hi⟩)).result = .error e) :
    (run func argList false env timeout).result
        = .ok (argList.map (sentinelValue func)) ∧
    (argList.map (sentinelValue func)).length = argList.length ∧
    (argList.map (sentinelValue func))[i]? = some none ∧
    (∀ j (hj : j < argList.length) (v : Val),
      (applyUnit func (argList.get ⟨j, hj⟩)).result = .ok v →
      (argList.map (sentinelValue func))[j]? = some (some v)) ∧
    (_run func (argList.get ⟨i, hi⟩) false initWorker).state.realOut =
      (applyUnit func (argList.get ⟨i, hi⟩)).printed ++ (strOfErr e ++ "\n") := by
  have hrun := run_eq_of_complete func argList false env timeout hc hni ht hcov
  have hfe : firstErrorInOrder (taskResults func argList false) env.order = none :=
    firstError_eq_none _ _ (slotError_suppressed func argList)
  rw [hfe] at hrun
  refine ⟨?_, List.length_map _ _, ?_, ?_, ?_⟩
  · rw [hrun, results_eq_sentinels func argList]
  · rw [List.getElem?_map, List.getElem?_eq_getElem hi]
    show some (sentinelValue func (argList.get ⟨i, hi⟩)) = some none
    unfold sentinelValue
    rw [he]
  · intro j hj v hv
    rw [List.getElem?_map, List.getElem?_eq_getElem hj]
    show some (sentinelValue func (argList.get ⟨j, hj⟩)) = some (some v)
    unfold sentinelValue
    rw [hv]
  · rw [_run_eq_runBuffered, runBuffered_state_eq _ _ initWorker rfl]
    show initWorker.realOut ++
      capturedText (applyUnit func (argList.get ⟨i, hi⟩)) false = _
    unfold capturedText
    rw [he]
    rfl

/-- An environment for three tasks, completion order shuffled. -/
def envThreeShuffled : Env :=
  { createOk := true, createErr := .valueError "", elapsed := 0,
    interrupted := false, order := [2, 0, 1] }

/-- Claim C4 witness: a three-task batch whose middle task raises under
log-and-continue still returns a complete, ordered result list. -/
theorem run_log_and_continue_witness :
    (run _testexc [Val.int 1, Val.int 2, Val.int 3] false envThreeShuffled
      3600).result
      = .ok ([Val.int 1, Val.int 2, Val.int 3].map (sentinelValue _testexc)) :=
  (run_log_and_continue _testexc [Val.int 1, Val.int 2, Val.int 3]
    envThreeShuffled 3600 rfl rfl (by decide) (by decide) 1 (by decide)
    (.valueError "intentional failure") rfl).1

/-- Claim C6 counterexample: the default value of `run`'s `timeout`
parameter in the source is 3600 seconds, not the 600 seconds stated by
the claim. -/
theorem runDefaultTimeout_not_600 :
    runDefaultTimeout = 3600 ∧ runDefaultTimeout ≠ 600 := by
  constructor
  · rfl
  · intro h
    exact absurd h (by decide)

/-- Claim C6 (amended): if the wait for the batch's results exceeds the
configured timeout — whose default value is 3600 seconds, not 600 —
the call fails with a timeout error and the pool is terminated (then
joined) before the error surfaces. -/
theorem run_timeout_terminates (func : Func) (argList : List Val) (b : Bool)
    (env : Env) (timeout : Nat)
    (hc : env.createOk = true) (hni : env.interrupted = false)
    (ht : timeout < env.elapsed) :
    (run func argList b env timeout).result = .error .timeoutError ∧
    (run func argList b env timeout).events =
      [.setSignal .ignore, .createPool, .setSignal .original, .submitTasks,
       .waitResults, .poolTerminate, .poolJoin] ∧
    runDefaultTimeout = 3600 := by
  have htd : decide (timeout < env.elapsed) = true := decide_eq_true ht
  have hm : mapGet (taskResults func argList b) env.order env.interrupted
      (decide (timeout < env.elapsed)) = .error .timeoutError := by
    unfold mapGet
    rw [hni, htd]
    rfl
  rw [run_createOk_eq func argList b env timeout hc, hm]
  exact ⟨rfl, rfl, rfl⟩

/-- An environment in which the wait for results takes 9999 seconds. -/
def envSlow : Env :=
  { createOk := true, createErr := .valueError "", elapsed := 9999,
    interrupted := false, order := [0] }

/-- Claim C6 witness: a wait of 9999 s against a 3600 s timeout fails
with the timeout error. -/
theorem run_timeout_terminates_witness :
    (run _testfunc [Val.int 1] true envSlow 3600).result
      = .error .timeoutError :=
  (run_timeout_terminates _testfunc [Val.int 1] true envSlow 3600
    rfl rfl (by decide)).1

/-- Claim C7: whenever pool construction succeeds, the dispatcher's
first four actions, in order, are: set the SIGINT handler to ignore,
create the pool, restore the caller's original SIGINT handler, and
only then submit the tasks — so the handler swap brackets exactly the
pool construction and is undone before any task is submitted. -/
theorem run_signal_protocol (func : Func) (argList : List Val) (b : Bool)
    (env : Env) (timeout : Nat) (hc : env.createOk = true) :
    (run func argList b env timeout).events.take 4 =
      [DEvent.setSignal .ignore, .createPool, .setSignal .original,
       .submitTasks] := by
  rw [run_createOk_eq func argList b env timeout hc]
  cases mapGet (taskResults func argList b) env.order env.interrupted
    (decide (timeout < env.elapsed)) <;> rfl

/-- Claim C7 witness: the protocol observed on a concrete successful
call. -/
theorem run_signal_protocol_witness :
    (run _testfunc [Val.int 1] true envSlow 3600).events.take 4 =
      [DEvent.setSignal .ignore, .createPool, .setSignal .original,
       .submitTasks] :=
  run_signal_protocol _testfunc [Val.int 1] true envSlow 3600 rfl

/-- An environment in which `multiprocessing.Pool(nproc)` construction
itself raises (e.g. `nproc = 0` makes it raise
`ValueError("Number of processes must be at least 1")`). -/
def envPoolFail : Env :=
  { createOk := false,
    createErr := .valueError "Number of processes must be at least 1",
    elapsed := 0, interrupted := false, order := [] }

/-- Claim C8: when pool construction itself fails, teardown does NOT run
and the primary error is masked, contradicting the claim: the local
`pool` is unbound, so `pool.terminate()` in the `except` block and
`pool.join()` in the `finally` block raise `UnboundLocalError`; the
caller sees that name error instead of the construction error, no
terminate or join is ever performed, and the only action taken was
installing the ignore handler. -/
theorem run_pool_construction_failure_masks :
    (run _testfunc [Val.int 1] true envPoolFail 3600).result
        = .error (.nameError "pool") ∧
    (run _testfunc [Val.int 1] true envPoolFail 3600).events
        = [.setSignal .ignore] ∧
    DEvent.poolJoin ∉ (run _testfunc [Val.int 1] true envPoolFail 3600).events ∧
    DEvent.poolTerminate ∉
      (run _testfunc [Val.int 1] true envPoolFail 3600).events ∧
    (run _testfunc [Val.int 1] true envPoolFail 3600).result
        ≠ .error envPoolFail.createErr := by
  refine ⟨rfl, rfl, by decide, by decide, ?_⟩
  intro h
  have h2 : Except.error (α := List (Option Val)) (Err.nameError "pool")
      = Except.error (Err.valueError "Number of processes must be at least 1") := h
  injection h2 with h2
  exact Err.noConfusion h2
